import Mathlib

/-!
Verification of the Share-It file sharing service (src/app.py) against its
natural-language specification.

The embedding models the metadata store (the sqlite `files` table) as a list
of rows, time as seconds-since-epoch integers (`timedelta(days=d)` becomes
`d * 86400`), and the filesystem / S3 backend as a structure of oracles that
record, per path, whether the file exists, its modification time, and whether
a deletion attempt would succeed.  Stored `expires_at` TEXT values are
modelled by `StoredTs`: SQL NULL, a string `datetime.fromisoformat` parses to
some instant, or a nonempty string it rejects with `ValueError`.
-/

namespace ShareIt

/-- Stored `expires_at` column value: `null` is SQL NULL, `valid t` is an ISO
string that `datetime.fromisoformat` parses to the instant `t`, and `corrupt`
is a nonempty string that makes `fromisoformat` raise `ValueError` (nonempty,
so Python truthiness tests on it succeed). -/
inductive StoredTs where
  | null
  | valid (t : Int)
  | corrupt
deriving DecidableEq, Repr

/-- Row of the `files` table (src/app.py:283-315).  Columns not read by any
modelled operation (`id`, `mime`, `size`, `created_at`) are omitted.
`oneTime` is the `one_time_download` INTEGER flag, `storage` is the backend
discriminator column (`"local"` or `"s3"`). -/
structure Row where
  token : String
  origName : String
  path : String
  expiresAt : StoredTs
  oneTime : Bool
  storage : String
deriving DecidableEq, Repr

/-- Oracles for the storage backends: per path, whether a local file exists
(`Path.exists`), its `st_mtime`, whether unlinking it would succeed (false
models `PermissionError`/`OSError` raised by `Path.unlink`), whether an S3
`delete_object` call would succeed, and whether presigning would succeed. -/
structure Fs where
  fileExists : String → Bool
  mtime : String → Int
  unlinkOk : String → Bool
  s3DeleteOk : String → Bool
  presignOk : String → Bool

/-- Removing a local file from the filesystem oracle. -/
def fsUnlink (fs : Fs) (p : String) : Fs :=
  { fs with fileExists := fun q => if q == p then false else fs.fileExists q }

/-- Success flags for the sqlite statements issued by the deferred one-time
deletion task: `deleteOk` models whether `DELETE FROM files WHERE token = ?`
raises, `updateOk` whether the fallback `UPDATE files SET expires_at = ?`
raises (src/app.py:434-449). -/
structure DbEnv where
  deleteOk : Bool
  updateOk : Bool
deriving DecidableEq, Repr

/-- Metadata lookup `SELECT * FROM files WHERE token = ?` (src/app.py:754). -/
def dbGet (db : List Row) (tok : String) : Option Row :=
  db.find? (fun r => r.token == tok)

/-- Metadata deletion `DELETE FROM files WHERE token = ?` (src/app.py:435,
539, 780): removes every row carrying the token, a no-op when none does. -/
def dbDelete (db : List Row) (tok : String) : List Row :=
  db.filter (fun r => !(r.token == tok))

/-- Fallback update `UPDATE files SET expires_at = ? WHERE token = ?` with a
freshly produced (hence parseable) ISO timestamp (src/app.py:444-445). -/
def dbSetExpires (db : List Row) (tok : String) (now : Int) : List Row :=
  db.map (fun r => if r.token == tok then { r with expiresAt := StoredTs.valid now } else r)

theorem dbGet_dbDelete_self (db : List Row) (tok : String) :
    dbGet (dbDelete db tok) tok = none := by
  unfold dbGet dbDelete
  rw [List.find?_eq_none]
  intro x hx
  have hx2 := (List.mem_filter.mp hx).2
  simp only [Bool.not_eq_true', beq_eq_false_iff_ne, ne_eq] at hx2
  simp [hx2]

theorem dbDelete_of_get_none (db : List Row) (tok : String)
    (h : dbGet db tok = none) : dbDelete db tok = db := by
  unfold dbGet at h
  rw [List.find?_eq_none] at h
  unfold dbDelete
  rw [List.filter_eq_self]
  intro a ha
  have := h a ha
  simp only [beq_iff_eq] at this
  simp [this]

theorem dbGet_dbDelete_other (db : List Row) (tok u : String) (hne : u ≠ tok) :
    dbGet (dbDelete db tok) u = dbGet db u := by
  induction db with
  | nil => rfl
  | cons hd tl ih =>
    by_cases hh : hd.token = tok
    · have h2 : hd.token ≠ u := by
        rw [hh]
        exact fun c => hne c.symm
      simp only [dbGet, dbDelete, List.filter_cons, List.find?_cons] at ih ⊢
      simp only [hh, beq_self_eq_true, Bool.not_true, Bool.false_eq_true, if_false]
      have h2b : (tok == u) = false :=
        beq_eq_false_iff_ne.mpr (fun c => hne c.symm)
      rw [h2b]
      exact ih
    · have h1b : (hd.token == tok) = false := beq_eq_false_iff_ne.mpr hh
      simp only [dbGet, dbDelete, List.filter_cons, List.find?_cons] at ih ⊢
      rw [h1b]
      simp only [Bool.not_false, if_true, List.find?_cons]
      by_cases h3 : hd.token = u
      · have h3b : (hd.token == u) = true := by simp [h3]
        rw [h3b]
      · have h3b : (hd.token == u) = false := beq_eq_false_iff_ne.mpr h3
        rw [h3b]
        exact ih

/-- C9: after `Delete(T)` succeeds `Get(T)` returns NotFound; deleting a token
that is not present (here: any `db2` in which `Get(t)` is NotFound) is a no-op
that succeeds and returns the store unchanged; a second delete of the same
token changes nothing further; and the deletion leaves every other token's
record untouched. -/
theorem C9_delete_get (db db2 : List Row) (t u : String) (hne : u ≠ t)
    (h2 : dbGet db2 t = none) :
    dbGet (dbDelete db t) t = none ∧
    dbDelete db2 t = db2 ∧
    dbDelete (dbDelete db t) t = dbDelete db t ∧
    dbGet (dbDelete db t) u = dbGet db u := by
  refine ⟨dbGet_dbDelete_self db t, dbDelete_of_get_none db2 t h2, ?_,
    dbGet_dbDelete_other db t u hne⟩
  exact dbDelete_of_get_none (dbDelete db t) t (dbGet_dbDelete_self db t)

/-- Concrete fixture: a local record with an explicit far-future deadline. -/
def rowA : Row :=
  { token := "tA", origName := "a", path := "pA",
    expiresAt := StoredTs.valid 100, oneTime := false, storage := "local" }

/-- C9 witness: the theorem evaluated on a concrete one-row store. -/
theorem C9_witness :
    ("zz" : String) ≠ "tA" ∧ dbGet [] "tA" = none ∧
    (dbGet (dbDelete [rowA] "tA") "tA" = none ∧
     dbDelete ([] : List Row) "tA" = [] ∧
     dbDelete (dbDelete [rowA] "tA") "tA" = dbDelete [rowA] "tA" ∧
     dbGet (dbDelete [rowA] "tA") "zz" = dbGet [rowA] "zz") :=
  ⟨by decide, rfl, C9_delete_get [rowA] [] "tA" "zz" (by decide) rfl⟩

/-- Embeds `delete_s3_object` (src/app.py:148-153): the `delete_object` call
is wrapped in `try/except Exception`, every failure is merely logged, so the
caller can never observe that the backend deletion failed.  The returned
boolean is the raw outcome of the underlying delete; no caller inspects it. -/
def delete_s3_object (fs : Fs) (key : String) : Bool :=
  fs.s3DeleteOk key

/-- Everything after the first `/` of a character list, or `none` when there
is no `/`; implements Python's `split("/", 1)[1]`, whose `IndexError` on a
slashless input is the `none` case. -/
def afterFirstSlash : List Char → Option (List Char)
  | [] => none
  | c :: cs => if c = '/' then some cs else afterFirstSlash cs

/-- Key extraction used before S3 deletion (src/app.py:514, 1325):
`p[len("s3://"):].split("/", 1)[1]` when the path starts with `s3://`,
otherwise the whole value; `none` models the `IndexError` raised when an
`s3://` path contains no slash after the bucket name. -/
def s3KeyOfPath (p : String) : Option String :=
  if p.toList.take 5 = "s3://".toList then
    match afterFirstSlash (p.toList.drop 5) with
    | some rest => some (String.mk rest)
    | none => none
  else some p

/-- Decision phase of one sweeper iteration (src/app.py:466-499): the
`should_delete` flag computed for a row, or `none` when
`datetime.fromisoformat` raises `ValueError` on a corrupt `expires_at`
(the per-record handler at src/app.py:545-550 then skips the row).  A set
`expires_at` is expired when `now` is strictly past it, and additionally the
row is always marked when the currently configured `DEFAULT_EXPIRE_DAYS` is 0
(src/app.py:495-499).  A NULL `expires_at` falls back to the age of the
backing file: marked when its mtime is older than `now` minus the currently
configured window, or when the file is missing from disk (src/app.py:479-493).
The sweeper's SELECT (src/app.py:460-462) does not read `one_time_download`,
so the decision never consults `Row.oneTime`. -/
def sweepShouldDelete (defaultDays : Int) (now : Int) (fs : Fs) (r : Row) : Option Bool :=
  match r.expiresAt with
  | StoredTs.corrupt => none
  | StoredTs.valid t => some (decide (t < now) || decide (defaultDays = 0))
  | StoredTs.null =>
      if fs.fileExists r.path then
        some (decide (fs.mtime r.path < now - defaultDays * 86400))
      else some true

/-- Outcome of one sweeper iteration for a single row: `kept` when the row
survives in the `files` table (not eligible, skipped on a corrupt timestamp,
or its backend deletion raised), `removed` when its DB row was deleted. -/
inductive RowOutcome where
  | kept
  | removed
deriving DecidableEq, Repr

/-- Deletion phase of one sweeper iteration (src/app.py:501-554).  For an S3
row the key is extracted (an extraction error re-raises into the per-record
handler, keeping the row) and `delete_s3_object` is invoked — both of its
outcomes continue identically to the DB delete, because it swallows every
error.  For a local row an existing file is unlinked; a raised
`PermissionError`/`OSError` reaches the per-record handler and the row is
kept.  A missing local file only logs a warning and the DB delete proceeds.
The DB delete itself (src/app.py:539) is modelled as succeeding. -/
def processRow (defaultDays : Int) (now : Int) (fs : Fs) (r : Row) : RowOutcome :=
  match sweepShouldDelete defaultDays now fs r with
  | none => RowOutcome.kept
  | some false => RowOutcome.kept
  | some true =>
      if r.storage == "s3" then
        match s3KeyOfPath r.path with
        | none => RowOutcome.kept
        | some key =>
            if delete_s3_object fs key then RowOutcome.removed else RowOutcome.removed
      else
        if fs.fileExists r.path then
          if fs.unlinkOk r.path then RowOutcome.removed else RowOutcome.kept
        else RowOutcome.removed

/-- One full sweep cycle over a snapshot of the `files` table
(src/app.py:452-565): the rows that remain afterwards. -/
def cleanup_expired_files (defaultDays now : Int) (fs : Fs) (db : List Row) : List Row :=
  db.filter (fun r => decide (processRow defaultDays now fs r = RowOutcome.kept))

/-- Filesystem oracle on which every file exists with mtime 0 and every
backend operation succeeds. -/
def fsLive : Fs :=
  { fileExists := fun _ => true, mtime := fun _ => 0,
    unlinkOk := fun _ => true, s3DeleteOk := fun _ => true,
    presignOk := fun _ => true }

/-- Filesystem oracle whose files are very old (mtime far in the past). -/
def fsOld : Fs :=
  { fsLive with mtime := fun _ => -1000000 }

/-- Filesystem oracle on which every S3 `delete_object` fails (the object
stays in the bucket). -/
def fsS3Fail : Fs :=
  { fsLive with s3DeleteOk := fun _ => false }

/-- Filesystem oracle on which local files exist but unlinking them raises. -/
def fsNoUnlink : Fs :=
  { fsLive with unlinkOk := fun _ => false }

/-- C1 counterexample: `rowA` carries an explicit `expires_at` 100 seconds in
the future (rule (a)).  Under the default retention window 2 the sweep at
time 0 keeps it, but after the global window is reconfigured to 0 the very
same sweep removes it — the retention-config change alone marked a rule-(a)
record for deletion, refuting the claim. -/
theorem C1_counterexample :
    rowA.expiresAt = StoredTs.valid 100 ∧ rowA.oneTime = false ∧
    processRow 2 0 fsLive rowA = RowOutcome.kept ∧
    processRow 0 0 fsLive rowA = RowOutcome.removed := by
  refine ⟨rfl, rfl, ?_, ?_⟩ <;> rfl

/-- C1 (amended): a retention-config change retroactively affects every
record whose `expires_at` is NULL regardless of its `one_time` flag (the
sweeper never reads the flag), and reconfiguring the window to zero
additionally marks every record with a parseable explicit `expires_at` for
immediate deletion; only between nonzero window values is the sweep outcome
of a record with explicit parseable `expires_at` independent of the
configured window. -/
theorem C1_nonzero_config_independence (d1 d2 now : Int) (fs : Fs) (r : Row)
    (t : Int) (he : r.expiresAt = StoredTs.valid t)
    (h1 : d1 ≠ 0) (h2 : d2 ≠ 0) :
    processRow d1 now fs r = processRow d2 now fs r := by
  unfold processRow sweepShouldDelete
  rw [he]
  simp [h1, h2]

/-- C1 witness: config-independence evaluated between windows 1 and 3 on the
future-dated record `rowA`. -/
theorem C1_witness :
    rowA.expiresAt = StoredTs.valid 100 ∧ (1 : Int) ≠ 0 ∧ (3 : Int) ≠ 0 ∧
    processRow 1 0 fsLive rowA = processRow 3 0 fsLive rowA :=
  ⟨rfl, by decide, by decide,
   C1_nonzero_config_independence 1 3 0 fsLive rowA 100 rfl (by decide) (by decide)⟩

/-- Concrete fixture: a one-time record without a deadline (rule (b)). -/
def rowB : Row :=
  { token := "tB", origName := "b", path := "pB",
    expiresAt := StoredTs.null, oneTime := true, storage := "local" }

/-- C2 counterexample: `rowB` has `expires_at` NULL and `one_time=true`, yet
the sweep at time 0 with window 2 removes it via the fallback age rule
(its file's mtime -1000000 is older than -172800), refuting the claim that
one-time records are never deleted by the fallback age rule. -/
theorem C2_counterexample :
    rowB.expiresAt = StoredTs.null ∧ rowB.oneTime = true ∧
    fsOld.mtime "pB" < 0 - 2 * 86400 ∧
    processRow 2 0 fsOld rowB = RowOutcome.removed := by
  refine ⟨rfl, rfl, by decide, ?_⟩
  rfl

/-- C2 (amended): the fallback age rule is applied to every record whose
`expires_at` is NULL regardless of its `one_time` flag (the sweeper does not
read the flag): when the backing file exists and its unlink would succeed,
such a record is removed by the sweep precisely when the file's mtime is
older than `now` minus the retention window configured at sweep time. -/
theorem C2_fallback_iff (d now : Int) (fs : Fs) (r : Row)
    (he : r.expiresAt = StoredTs.null) (hs : r.storage = "local")
    (hex : fs.fileExists r.path = true) (hu : fs.unlinkOk r.path = true) :
    (processRow d now fs r = RowOutcome.removed ↔
      fs.mtime r.path < now - d * 86400) := by
  unfold processRow sweepShouldDelete
  rw [he, hs]
  by_cases hm : fs.mtime r.path < now - d * 86400
  · simp [hex, hu, hm]
  · simp [hex, hu, hm]

/-- C2 witness: the fallback characterisation evaluated on the one-time
record `rowB` over the old filesystem at time 0 with window 2. -/
theorem C2_witness :
    rowB.expiresAt = StoredTs.null ∧ rowB.storage = "local" ∧
    fsOld.fileExists rowB.path = true ∧ fsOld.unlinkOk rowB.path = true ∧
    (processRow 2 0 fsOld rowB = RowOutcome.removed ↔
      fsOld.mtime rowB.path < 0 - 2 * 86400) :=
  ⟨rfl, rfl, rfl, rfl, C2_fallback_iff 2 0 fsOld rowB rfl rfl rfl rfl⟩

/-- Concrete fixture: an expired S3-backed record. -/
def rowC : Row :=
  { token := "tC", origName := "c", path := "s3://bkt/key1",
    expiresAt := StoredTs.valid (-5), oneTime := false, storage := "s3" }

/-- C3 counterexample: `rowC` is an expired remote record whose backend
deletion fails (`delete_s3_object` reports the underlying failure but
swallows it), yet the sweep still removes its metadata row — a tracked object
whose deletion failed disappears from tracking, refuting the claim for the
remote backend. -/
theorem C3_counterexample :
    rowC.storage = "s3" ∧
    s3KeyOfPath rowC.path = some "key1" ∧
    delete_s3_object fsS3Fail "key1" = false ∧
    processRow 2 0 fsS3Fail rowC = RowOutcome.removed := by
  refine ⟨rfl, by decide, rfl, ?_⟩
  rfl

/-- C3 (amended): for a local record marked for deletion whose file exists
but cannot be unlinked, the sweep keeps the metadata row and the record is
still present in the table after the cycle (so the next cycle retries it);
for a remote record marked for deletion with a well-formed key, the metadata
row is removed regardless of whether the S3 deletion succeeded, because
`delete_s3_object` swallows every error. -/
theorem C3_local_retained_s3_dropped (d now : Int) (fs : Fs) (db : List Row)
    (r rS : Row) (k : String)
    (hs : r.storage = "local")
    (hdel : sweepShouldDelete d now fs r = some true)
    (hex : fs.fileExists r.path = true) (hu : fs.unlinkOk r.path = false)
    (hmem : r ∈ db)
    (hsS : rS.storage = "s3")
    (hdelS : sweepShouldDelete d now fs rS = some true)
    (hkey : s3KeyOfPath rS.path = some k) :
    processRow d now fs r = RowOutcome.kept ∧
    r ∈ cleanup_expired_files d now fs db ∧
    processRow d now fs rS = RowOutcome.removed := by
  have hkept : processRow d now fs r = RowOutcome.kept := by
    unfold processRow
    rw [hdel, hs]
    simp [hex, hu]
  refine ⟨hkept, ?_, ?_⟩
  · unfold cleanup_expired_files
    exact List.mem_filter.mpr ⟨hmem, by simp [hkept]⟩
  · unfold processRow
    rw [hdelS, hsS, hkey]
    by_cases hok : delete_s3_object fs k
    · simp [hok]
    · simp [hok]

/-- Concrete fixture: an expired local record. -/
def rowF : Row :=
  { token := "tF", origName := "f", path := "pF",
    expiresAt := StoredTs.valid (-5), oneTime := false, storage := "local" }

/-- Filesystem oracle on which local unlinks and S3 deletes both fail. -/
def fsMixedFail : Fs :=
  { fsLive with unlinkOk := fun _ => false, s3DeleteOk := fun _ => false }

/-- C3 witness: the amended theorem evaluated on the expired local record
`rowF` (unlink fails, row retained through the cycle) and the expired remote
record `rowC` (row removed although the S3 delete failed). -/
theorem C3_witness :
    rowF.storage = "local" ∧
    sweepShouldDelete 2 0 fsMixedFail rowF = some true ∧
    fsMixedFail.fileExists rowF.path = true ∧
    fsMixedFail.unlinkOk rowF.path = false ∧
    rowF ∈ [rowF, rowC] ∧
    rowC.storage = "s3" ∧
    sweepShouldDelete 2 0 fsMixedFail rowC = some true ∧
    s3KeyOfPath rowC.path = some "key1" ∧
    (processRow 2 0 fsMixedFail rowF = RowOutcome.kept ∧
     rowF ∈ cleanup_expired_files 2 0 fsMixedFail [rowF, rowC] ∧
     processRow 2 0 fsMixedFail rowC = RowOutcome.removed) :=
  ⟨rfl, by decide, rfl, rfl, by decide, rfl, by decide, by decide,
   C3_local_retained_s3_dropped 2 0 fsMixedFail [rowF, rowC] rowF rowC "key1"
     rfl (by decide) rfl rfl (by decide) rfl (by decide) (by decide)⟩

/-- Result of a `GET /d/{token}` request (src/app.py:751-969): `notFound` is
the 404 for an unknown token or a missing local file, `gone` the 410 for an
expired link, `served` the streamed `FileResponse` (local) or the 307
redirect to a presigned URL (S3) — with the flag recording whether a deferred
one-time deletion task was scheduled — and `serverError` the 500 raised when
presigning fails. -/
inductive DownloadResult where
  | notFound
  | gone
  | served (oneTimeScheduled : Bool)
  | serverError
deriving DecidableEq, Repr

/-- Serving phase of the download handler (src/app.py:799-927), reached when
the token exists and the expiry check did not fire: a local row streams the
file when it exists on disk and 404s otherwise; an S3 row redirects to a
presigned URL or 500s when presigning fails.  When `one_time_download` is set
a deferred deletion task is scheduled (`delete_one_time_file` after 2 s for
local, `delayed_delete_s3` after 5 s for S3); the response itself leaves the
metadata store and the filesystem untouched. -/
def downloadServe (fs : Fs) (db : List Row) (r : Row) :
    DownloadResult × Fs × List Row :=
  if r.storage == "local" then
    if fs.fileExists r.path then (DownloadResult.served r.oneTime, fs, db)
    else (DownloadResult.notFound, fs, db)
  else
    if fs.presignOk r.path then (DownloadResult.served r.oneTime, fs, db)
    else (DownloadResult.serverError, fs, db)

/-- Download handler for a token (src/app.py:751-927).  Unknown token → 404.
A parseable `expires_at` in the past → the stored path is unlinked
best-effort (`unlink(missing_ok=True)` inside `try/except: pass`,
src/app.py:775-778, so failures are swallowed), the metadata row is deleted
unconditionally (src/app.py:779-781), and 410 is reported.  An unparseable
`expires_at` hits `except ValueError: pass` (src/app.py:788-789) and the
handler falls through to serving. -/
def download (now : Int) (fs : Fs) (db : List Row) (tok : String) :
    DownloadResult × Fs × List Row :=
  match dbGet db tok with
  | none => (DownloadResult.notFound, fs, db)
  | some r =>
    match r.expiresAt with
    | StoredTs.valid t =>
        if t < now then
          (DownloadResult.gone,
           (if fs.fileExists r.path && fs.unlinkOk r.path then fsUnlink fs r.path else fs),
           dbDelete db tok)
        else downloadServe fs db r
    | StoredTs.corrupt => downloadServe fs db r
    | StoredTs.null => downloadServe fs db r

/-- Link-status probe `GET /api/link-status/{token}` (src/app.py:1136-1160):
reports `exists = false` for an unknown token, for a parseable `expires_at`
in the past, and — via `except ValueError` — for an unparseable one. -/
def link_status (now : Int) (db : List Row) (tok : String) : Bool :=
  match dbGet db tok with
  | none => false
  | some r =>
    match r.expiresAt with
    | StoredTs.null => true
    | StoredTs.corrupt => false
    | StoredTs.valid t => if t < now then false else true

/-- Concrete fixture: a local record whose stored `expires_at` string does
not parse. -/
def rowD : Row :=
  { token := "tD", origName := "d", path := "pD",
    expiresAt := StoredTs.corrupt, oneTime := false, storage := "local" }

/-- C6 counterexample: `rowD` carries a present but unparseable `expires_at`,
yet the download handler serves it as live content (the `ValueError` is
swallowed by `except ValueError: pass` and the expiry check is skipped),
refuting the claim that such a record is never served. -/
theorem C6_counterexample :
    rowD.expiresAt = StoredTs.corrupt ∧
    (download 0 fsLive [rowD] "tD").1 = DownloadResult.served false := by
  exact ⟨rfl, rfl⟩

/-- C6 (amended): a record with a present but unparseable `expires_at` is
treated conservatively only by the link-status probe, which reports it as
not existing; the sweeper skips the record without deleting it (the
`ValueError` sends it to the per-record error handler), and the download
handler ignores the parse failure and serves the record as live content
whenever its backing file exists. -/
theorem C6_corrupt_handling (d now : Int) (fs : Fs) (db : List Row)
    (tok : String) (r : Row)
    (hget : dbGet db tok = some r) (hc : r.expiresAt = StoredTs.corrupt)
    (hloc : r.storage = "local") (hex : fs.fileExists r.path = true) :
    link_status now db tok = false ∧
    processRow d now fs r = RowOutcome.kept ∧
    (download now fs db tok).1 = DownloadResult.served r.oneTime := by
  refine ⟨?_, ?_, ?_⟩
  · unfold link_status
    rw [hget]
    dsimp only
    rw [hc]
  · unfold processRow sweepShouldDelete
    rw [hc]
  · unfold download
    rw [hget]
    dsimp only
    rw [hc]
    unfold downloadServe
    rw [hloc]
    simp [hex]

/-- C6 witness: the amended behaviour evaluated on the corrupt record `rowD`. -/
theorem C6_witness :
    dbGet [rowD] "tD" = some rowD ∧ rowD.expiresAt = StoredTs.corrupt ∧
    rowD.storage = "local" ∧ fsLive.fileExists rowD.path = true ∧
    (link_status 0 [rowD] "tD" = false ∧
     processRow 2 0 fsLive rowD = RowOutcome.kept ∧
     (download 0 fsLive [rowD] "tD").1 = DownloadResult.served rowD.oneTime) :=
  ⟨rfl, rfl, rfl, rfl, C6_corrupt_handling 2 0 fsLive [rowD] "tD" rowD rfl rfl rfl rfl⟩

/-- Concrete fixture: an expired local record. -/
def rowE : Row :=
  { token := "tE", origName := "e", path := "pE",
    expiresAt := StoredTs.valid (-5), oneTime := false, storage := "local" }

/-- C7 counterexample: `rowE` is expired and its backend file exists but
cannot be unlinked (the deletion failure is swallowed by `except: pass`),
yet the download handler still deletes the metadata row and reports Gone —
the metadata is not retained on backend-deletion failure, refuting the claim
that the handler performs the sweeper's two-phase delete. -/
theorem C7_counterexample :
    rowE.expiresAt = StoredTs.valid (-5) ∧
    fsNoUnlink.fileExists "pE" = true ∧ fsNoUnlink.unlinkOk "pE" = false ∧
    (download 0 fsNoUnlink [rowE] "tE").1 = DownloadResult.gone ∧
    (download 0 fsNoUnlink [rowE] "tE").2.2 = [] := by
  exact ⟨rfl, rfl, rfl, rfl, rfl⟩

/-- C7 (amended): for a download whose token has a parseable `expires_at` in
the past, the handler unlinks the stored path best-effort with all errors
swallowed, deletes the metadata row unconditionally — also when the backend
deletion failed — and reports Gone; unlike the sweeper it never retains the
metadata row for retry. -/
theorem C7_expired_download (now t : Int) (fs : Fs) (db : List Row)
    (tok : String) (r : Row)
    (hget : dbGet db tok = some r) (he : r.expiresAt = StoredTs.valid t)
    (hlt : t < now) :
    (download now fs db tok).1 = DownloadResult.gone ∧
    (download now fs db tok).2.2 = dbDelete db tok := by
  unfold download
  rw [hget]
  dsimp only
  rw [he]
  simp [hlt]

/-- C7 witness: the expired-download behaviour evaluated on `rowE` over the
filesystem on which unlinking fails. -/
theorem C7_witness :
    dbGet [rowE] "tE" = some rowE ∧ rowE.expiresAt = StoredTs.valid (-5) ∧
    ((-5 : Int) < 0) ∧
    ((download 0 fsNoUnlink [rowE] "tE").1 = DownloadResult.gone ∧
     (download 0 fsNoUnlink [rowE] "tE").2.2 = dbDelete [rowE] "tE") :=
  ⟨rfl, rfl, by decide,
   C7_expired_download 0 (-5) fsNoUnlink [rowE] "tE" rowE rfl rfl (by decide)⟩

theorem dbGet_dbSetExpires (db : List Row) (tok : String) (now : Int) :
    dbGet (dbSetExpires db tok now) tok =
      (dbGet db tok).map (fun r => { r with expiresAt := StoredTs.valid now }) := by
  induction db with
  | nil => rfl
  | cons hd tl ih =>
    simp only [dbGet, dbSetExpires, List.map_cons, List.find?_cons] at ih ⊢
    by_cases hh : hd.token = tok
    · have hb : (hd.token == tok) = true := by simp [hh]
      simp [hb]
    · have hb : (hd.token == tok) = false := beq_eq_false_iff_ne.mpr hh
      simp only [hb, Bool.false_eq_true, if_false]
      exact ih

/-- Error-recovery tail of the deferred one-time deletion (src/app.py:439-449):
on any exception the handler tries `UPDATE files SET expires_at = <now>`,
and if even that raises it gives up, leaving the store as it was. -/
def oneTimeFallback (now : Int) (dbe : DbEnv) (db : List Row) (tok : String) :
    List Row :=
  if dbe.updateOk then dbSetExpires db tok now else db

/-- Deferred deletion of a local one-time file, `delete_one_time_file`
(src/app.py:417-449), run as a background task 2 s after the response: unlink
the file when it exists (a raised unlink error jumps to the handler's
`except`, skipping the row delete), a missing file only logs a warning, then
delete the metadata row; on any raised error fall back to
`oneTimeFallback`. -/
def delete_one_time_file (now : Int) (fs : Fs) (dbe : DbEnv) (db : List Row)
    (tok path : String) : Fs × List Row :=
  if fs.fileExists path then
    if fs.unlinkOk path then
      if dbe.deleteOk then (fsUnlink fs path, dbDelete db tok)
      else (fsUnlink fs path, oneTimeFallback now dbe db tok)
    else (fs, oneTimeFallback now dbe db tok)
  else
    if dbe.deleteOk then (fs, dbDelete db tok)
    else (fs, oneTimeFallback now dbe db tok)

/-- C10: when the deferred one-time deletion fails (the unlink of an existing
file raises, or the metadata delete raises), the handler does not drop the
metadata row: the token still resolves afterwards, and when the fallback
`UPDATE` succeeds the record's `expires_at` has been set to the current time,
which a sweep at any strictly later instant marks as expired. -/
theorem C10_fallback_tracking (now now2 d : Int) (fs fs2 : Fs) (dbe : DbEnv)
    (db : List Row) (tok path : String) (r : Row)
    (hget : dbGet db tok = some r)
    (hfail : (fs.fileExists path = true ∧ fs.unlinkOk path = false) ∨
      dbe.deleteOk = false) :
    ((dbGet (delete_one_time_file now fs dbe db tok path).2 tok).isSome = true) ∧
    (dbe.updateOk = true →
      dbGet (delete_one_time_file now fs dbe db tok path).2 tok =
        some { r with expiresAt := StoredTs.valid now }) ∧
    (now < now2 →
      sweepShouldDelete d now2 fs2 { r with expiresAt := StoredTs.valid now } =
        some true) := by
  have hdb : (delete_one_time_file now fs dbe db tok path).2 =
      oneTimeFallback now dbe db tok := by
    unfold delete_one_time_file
    rcases hfail with ⟨hex, hu⟩ | hdel
    · simp [hex, hu]
    · by_cases hex : fs.fileExists path
      · by_cases hu : fs.unlinkOk path
        · simp [hex, hu, hdel]
        · simp [hex, hu]
      · simp [hex, hdel]
  refine ⟨?_, ?_, ?_⟩
  · rw [hdb]
    unfold oneTimeFallback
    by_cases hup : dbe.updateOk
    · simp [hup, dbGet_dbSetExpires, hget]
    · simp [hup, hget]
  · intro hup
    rw [hdb]
    unfold oneTimeFallback
    simp [hup, dbGet_dbSetExpires, hget]
  · intro hlt
    unfold sweepShouldDelete
    simp [hlt]

/-- C10 witness: the fallback behaviour evaluated on the one-time record
`rowB` when unlinking its existing file fails. -/
theorem C10_witness :
    dbGet [rowB] "tB" = some rowB ∧
    ((fsNoUnlink.fileExists "pB" = true ∧ fsNoUnlink.unlinkOk "pB" = false) ∨
      (DbEnv.mk true true).deleteOk = false) ∧
    (((dbGet (delete_one_time_file 0 fsNoUnlink (DbEnv.mk true true) [rowB]
        "tB" "pB").2 "tB").isSome = true) ∧
     ((DbEnv.mk true true).updateOk = true →
       dbGet (delete_one_time_file 0 fsNoUnlink (DbEnv.mk true true) [rowB]
          "tB" "pB").2 "tB" =
         some { rowB with expiresAt := StoredTs.valid 0 }) ∧
     ((0 : Int) < 5 →
       sweepShouldDelete 2 5 fsLive { rowB with expiresAt := StoredTs.valid 0 } =
         some true)) :=
  ⟨rfl, Or.inl ⟨rfl, rfl⟩,
   C10_fallback_tracking 0 5 2 fsNoUnlink fsLive (DbEnv.mk true true) [rowB]
     "tB" "pB" rowB rfl (Or.inl ⟨rfl, rfl⟩)⟩

/-- C4 counterexample: two downloads of the one-time token `tB` issued before
either deferred deletion task has fired (deletion is deferred by a 2 s grace
delay and the serving path does not modify the store) both see success —
refuting the claim that exactly one of two simultaneous downloads succeeds. -/
theorem C4_counterexample :
    rowB.oneTime = true ∧
    (download 0 fsLive [rowB] "tB").1 = DownloadResult.served true ∧
    (download 0 fsLive [rowB] "tB").2.2 = [rowB] ∧
    (download 0 fsLive ((download 0 fsLive [rowB] "tB").2.2) "tB").1 =
      DownloadResult.served true :=
  ⟨rfl, rfl, rfl, rfl⟩

/-- C4 (amended): both simultaneous downloads of a one-time token are served,
because the serving path leaves the store untouched and deletion is deferred;
the deferred deletion is idempotent — its first run removes the backing file
and the metadata row, a second run is a no-op returning the same state — and
any download after the deferred deletion has run returns NotFound, so the
object does not outlive its first consumption round. -/
theorem C4_both_served_then_deleted (now : Int) (fs : Fs) (dbe : DbEnv)
    (db : List Row) (tok : String) (r : Row)
    (hget : dbGet db tok = some r) (hnull : r.expiresAt = StoredTs.null)
    (hot : r.oneTime = true) (hloc : r.storage = "local")
    (hex : fs.fileExists r.path = true) (hun : fs.unlinkOk r.path = true)
    (hdel : dbe.deleteOk = true) :
    (download now fs db tok).1 = DownloadResult.served true ∧
    (download now fs db tok).2.2 = db ∧
    dbGet (delete_one_time_file now fs dbe db tok r.path).2 tok = none ∧
    (delete_one_time_file now fs dbe db tok r.path).1.fileExists r.path = false ∧
    delete_one_time_file now (delete_one_time_file now fs dbe db tok r.path).1 dbe
        (delete_one_time_file now fs dbe db tok r.path).2 tok r.path
      = delete_one_time_file now fs dbe db tok r.path ∧
    (download now (delete_one_time_file now fs dbe db tok r.path).1
        (delete_one_time_file now fs dbe db tok r.path).2 tok).1 =
      DownloadResult.notFound := by
  have h1 : delete_one_time_file now fs dbe db tok r.path =
      (fsUnlink fs r.path, dbDelete db tok) := by
    unfold delete_one_time_file
    simp [hex, hun, hdel]
  have hserve : download now fs db tok = (DownloadResult.served true, fs, db) := by
    unfold download
    rw [hget]
    dsimp only
    rw [hnull]
    unfold downloadServe
    rw [hloc]
    simp [hex, hot]
  have hgone : (fsUnlink fs r.path).fileExists r.path = false := by
    unfold fsUnlink
    simp
  refine ⟨?_, ?_, ?_, ?_, ?_, ?_⟩
  · rw [hserve]
  · rw [hserve]
  · rw [h1]
    exact dbGet_dbDelete_self db tok
  · rw [h1]
    exact hgone
  · rw [h1]
    unfold delete_one_time_file
    rw [hgone]
    simp only [Bool.false_eq_true, if_false, hdel, if_true]
    rw [dbDelete_of_get_none (dbDelete db tok) tok (dbGet_dbDelete_self db tok)]
  · rw [h1]
    unfold download
    rw [dbGet_dbDelete_self db tok]

/-- C4 witness: the amended behaviour evaluated on the one-time record `rowB`
over the fully healthy filesystem. -/
theorem C4_witness :
    dbGet [rowB] "tB" = some rowB ∧ rowB.expiresAt = StoredTs.null ∧
    rowB.oneTime = true ∧ rowB.storage = "local" ∧
    fsLive.fileExists rowB.path = true ∧ fsLive.unlinkOk rowB.path = true ∧
    (DbEnv.mk true true).deleteOk = true ∧
    ((download 0 fsLive [rowB] "tB").1 = DownloadResult.served true ∧
     (download 0 fsLive [rowB] "tB").2.2 = [rowB] ∧
     dbGet (delete_one_time_file 0 fsLive (DbEnv.mk true true) [rowB] "tB"
        rowB.path).2 "tB" = none ∧
     (delete_one_time_file 0 fsLive (DbEnv.mk true true) [rowB] "tB"
        rowB.path).1.fileExists rowB.path = false ∧
     delete_one_time_file 0
         (delete_one_time_file 0 fsLive (DbEnv.mk true true) [rowB] "tB" rowB.path).1
         (DbEnv.mk true true)
         (delete_one_time_file 0 fsLive (DbEnv.mk true true) [rowB] "tB" rowB.path).2
         "tB" rowB.path
       = delete_one_time_file 0 fsLive (DbEnv.mk true true) [rowB] "tB" rowB.path ∧
     (download 0
         (delete_one_time_file 0 fsLive (DbEnv.mk true true) [rowB] "tB" rowB.path).1
         (delete_one_time_file 0 fsLive (DbEnv.mk true true) [rowB] "tB" rowB.path).2
         "tB").1 = DownloadResult.notFound) :=
  ⟨rfl, rfl, rfl, rfl, rfl, rfl, rfl,
   C4_both_served_then_deleted 0 fsLive (DbEnv.mk true true) [rowB] "tB" rowB
     rfl rfl rfl rfl rfl rfl rfl⟩

/-- Clamping of the requested retention days in the upload handler
(src/app.py:657-667): negative values become 0, values above the configured
maximum become the maximum.  (An unparseable form value falls back to the
configured default before this point, orthogonal to the clamp.) -/
def clampDays (requested maxDays : Int) : Int :=
  let d := if requested < 0 then 0 else requested
  if d > maxDays then maxDays else d

/-- Expiry computation `compute_expiry` (src/app.py:327-331): `None` for a
missing or non-positive day count, otherwise now plus `min(days, MAX)` days. -/
def compute_expiry (days : Option Int) (maxDays now : Int) : Option Int :=
  match days with
  | none => none
  | some d => if d ≤ 0 then none else some (now + min d maxDays * 86400)

/-- Outcome of an upload request: the returned `expires_at` and the stored
`one_time_download` flag, or the synchronous error raised when the backend
write fails (HTTPException 500 for S3, the propagated I/O error locally). -/
inductive UploadResult where
  | ok (expiresAt : Option Int) (oneTime : Bool)
  | backendError
deriving DecidableEq, Repr

/-- Upload handler core `POST /api/upload` (src/app.py:643-749) after
authorization: clamp the requested days, write the bytes to the backend —
a failed write raises before any database statement is issued
(src/app.py:682-705), leaving the metadata store untouched — then insert the
row with `expires_at = compute_expiry(days)` and
`one_time_download = (days == 0)`, both on the clamped value
(src/app.py:707-737). -/
def upload (db : List Row) (requestedDays maxDays now : Int)
    (backendWriteOk : Bool) (tok path origName storage : String) :
    UploadResult × List Row :=
  let d := clampDays requestedDays maxDays
  if backendWriteOk then
    let e := compute_expiry (some d) maxDays now
    (UploadResult.ok e (d == 0),
     db ++ [{ token := tok, origName := origName, path := path,
              expiresAt := match e with
                | none => StoredTs.null
                | some t => StoredTs.valid t,
              oneTime := d == 0, storage := storage }])
  else (UploadResult.backendError, db)

theorem clampDays_bounds (requested maxDays : Int) (hmx : 0 ≤ maxDays) :
    0 ≤ clampDays requested maxDays ∧ clampDays requested maxDays ≤ maxDays := by
  simp only [clampDays]
  split_ifs <;> omega

/-- C5: every upload clamps the requested retention days into
`[0, maxDays]`; a clamped value of 0 yields `expires_at = null` with
`one_time = true`, a clamped value `d > 0` yields
`expires_at = now + d` days with `one_time = false`, and every successful
upload produces one of these two combinations — no other pairing exists. -/
theorem C5_expiry_policy (db : List Row) (requestedDays maxDays now : Int)
    (tok path origName storage : String) (hmx : 0 ≤ maxDays) :
    0 ≤ clampDays requestedDays maxDays ∧
    clampDays requestedDays maxDays ≤ maxDays ∧
    (clampDays requestedDays maxDays = 0 →
      (upload db requestedDays maxDays now true tok path origName storage).1 =
        UploadResult.ok none true) ∧
    (0 < clampDays requestedDays maxDays →
      (upload db requestedDays maxDays now true tok path origName storage).1 =
        UploadResult.ok
          (some (now + clampDays requestedDays maxDays * 86400)) false) ∧
    ((upload db requestedDays maxDays now true tok path origName storage).1 =
        UploadResult.ok none true ∨
     (upload db requestedDays maxDays now true tok path origName storage).1 =
        UploadResult.ok
          (some (now + clampDays requestedDays maxDays * 86400)) false) := by
  obtain ⟨h0, h1⟩ := clampDays_bounds requestedDays maxDays hmx
  have hzero : clampDays requestedDays maxDays = 0 →
      (upload db requestedDays maxDays now true tok path origName storage).1 =
        UploadResult.ok none true := by
    intro hz
    simp only [upload, compute_expiry]
    rw [hz]
    simp
  have hpos : 0 < clampDays requestedDays maxDays →
      (upload db requestedDays maxDays now true tok path origName storage).1 =
        UploadResult.ok
          (some (now + clampDays requestedDays maxDays * 86400)) false := by
    intro hp
    have hne : ¬ (clampDays requestedDays maxDays ≤ 0) := by omega
    have hmin : min (clampDays requestedDays maxDays) maxDays =
        clampDays requestedDays maxDays := min_eq_left h1
    have hbeq : (clampDays requestedDays maxDays == 0) = false := by
      refine beq_eq_false_iff_ne.mpr ?_
      omega
    simp only [upload, compute_expiry]
    simp [hne, hmin, hbeq]
  refine ⟨h0, h1, hzero, hpos, ?_⟩
  by_cases hz : clampDays requestedDays maxDays = 0
  · exact Or.inl (hzero hz)
  · exact Or.inr (hpos (by omega))

/-- C5 witness: the expiry policy evaluated on a request for 5 days against a
maximum of 30. -/
theorem C5_witness :
    (0 : Int) ≤ 30 ∧
    (0 ≤ clampDays 5 30 ∧
     clampDays 5 30 ≤ 30 ∧
     (clampDays 5 30 = 0 →
       (upload [] 5 30 0 true "t" "p" "n" "local").1 = UploadResult.ok none true) ∧
     (0 < clampDays 5 30 →
       (upload [] 5 30 0 true "t" "p" "n" "local").1 =
         UploadResult.ok (some (0 + clampDays 5 30 * 86400)) false) ∧
     ((upload [] 5 30 0 true "t" "p" "n" "local").1 = UploadResult.ok none true ∨
      (upload [] 5 30 0 true "t" "p" "n" "local").1 =
        UploadResult.ok (some (0 + clampDays 5 30 * 86400)) false)) :=
  ⟨by decide, C5_expiry_policy [] 5 30 0 "t" "p" "n" "local" (by decide)⟩

/-- C8: a failed backend write (local disk write or remote S3 put) aborts the
upload synchronously with an error before any metadata commit: the handler
reports the failure and the metadata store is returned exactly as it was,
with no row inserted. -/
theorem C8_write_failure_no_metadata (db : List Row)
    (requestedDays maxDays now : Int) (tok path origName storage : String) :
    upload db requestedDays maxDays now false tok path origName storage =
      (UploadResult.backendError, db) := by
  rfl

end ShareIt
